import Mathlib

/-!
Shallow embedding of `src/app.py` (AILiquorSentimentAnalyzer), a Streamlit
dashboard that collects liquor-brand feedback, sends it to a hosted LLM
endpoint for sentiment classification, and aggregates the results per brand.

The embedding follows the source:
* `analyze_sentiment` (app.py 32-64): returns `{"error": "Missing GROQ_API_KEY"}`
  when the environment key is falsy, otherwise issues a single `requests.post`
  whose outcome (success content or exception text) we model by an oracle.
* the tab-1 submit handler (app.py 91-102): validates `brand and feedback_text`,
  calls the classifier and appends one record, else warns.
* the tab-2 aggregation (app.py 129-150): per record, lower-case the raw
  classifier text (`""` for failures) and keyword-match `"positive"` then
  `"negative"`, else neutral; groupby counts and row-normalised percentages.
-/

namespace LiquorSentiment

/-- Outcome of one classifier call: app.py returns the dict `{"raw": content}`
on success and `{"error": ...}` on a missing key or a raised exception. -/
inductive ClassifierResult where
  | success (raw : String)
  | failure (error : String)
deriving DecidableEq, Repr

/-- Python truthiness of `GROQ_API_KEY = os.environ.get("GROQ_API_KEY")`:
`not GROQ_API_KEY` holds when the variable is unset (`None`) or empty. -/
def keyFalsy : Option String → Bool
  | none => true
  | some s => s.isEmpty

/-- Embedding of `analyze_sentiment` (app.py 32-64).  The network is an oracle
`net` giving the outcome of the `try` block (the raw reply content on success,
`str(e)` on timeout / HTTP error / malformed body).  The second component
counts the network requests issued by the call. -/
def analyze_sentiment (apiKey : Option String) (net : String → ClassifierResult)
    (feedback : String) : ClassifierResult × Nat :=
  if keyFalsy apiKey then (.failure "Missing GROQ_API_KEY", 0)
  else (net feedback, 1)

/-- Whether `hay` starts with `needle`, on character lists. -/
def leadsWith : List Char → List Char → Bool
  | _, [] => true
  | [], _ :: _ => false
  | c :: cs, d :: ds => c == d && leadsWith cs ds

/-- Contiguous-substring test on character lists: Python `needle in hay`. -/
def hasSub (needle : List Char) : List Char → Bool
  | [] => needle.isEmpty
  | c :: rest => leadsWith (c :: rest) needle || hasSub needle rest

/-- Python `needle in hay` on strings. -/
def strContains (hay needle : String) : Bool :=
  hasSub needle.toList hay.toList

/-- Python `s.lower()`, character by character. -/
def pyLower (s : String) : List Char :=
  s.toList.map Char.toLower

/-- The sentiment labels derived by the dashboard (app.py 132-137). -/
inductive SentimentLabel where
  | Positive
  | Negative
  | Neutral
deriving DecidableEq, Repr

/-- One entry of `st.session_state.feedback_data` (app.py 94-99). -/
structure FeedbackRecord where
  brand : String
  flavor : String
  feedback : String
  result : ClassifierResult
deriving DecidableEq, Repr

/-- Python `item["result"].get("raw", "")`: the stored dict has a `"raw"` key
exactly when the classifier succeeded, so a failure yields the default `""`. -/
def rawOf : ClassifierResult → String
  | .success r => r
  | .failure _ => ""

/-- The per-record keyword classification in the dashboard loop (app.py
130-137): lower-case the raw text, check `"positive"` first, then
`"negative"`, else neutral. -/
def sentimentOfRaw (raw : String) : SentimentLabel :=
  let analysis := pyLower raw
  if hasSub "positive".toList analysis then .Positive
  else if hasSub "negative".toList analysis then .Negative
  else .Neutral

/-- Classification of a stored result: the loop reads
`item["result"].get("raw", "")`. -/
def sentimentOf (res : ClassifierResult) : SentimentLabel :=
  sentimentOfRaw (rawOf res)

/-- The `sentiment_summary` list built by the dashboard (app.py 129-137):
one `(brand, label)` pair per stored record, in store order. -/
def sentiment_summary (store : List FeedbackRecord) : List (String × SentimentLabel) :=
  store.map fun item => (item.brand, sentimentOf item.result)

/-- One cell of the `counts` groupby (app.py 140): the number of records of
`brand` classified with `label` (0 when the pair is absent, as `fill_value=0`
supplies). -/
def tally (store : List FeedbackRecord) (brand : String) (label : SentimentLabel) : Nat :=
  (sentiment_summary store).countP fun p => p.1 == brand && p.2 == label

/-- A brand's row total, `counts.sum(axis=1)` (app.py 150). -/
def brandTotal (store : List FeedbackRecord) (brand : String) : Nat :=
  (sentiment_summary store).countP fun p => p.1 == brand

/-- One cell of `percent_df = counts.div(counts.sum(axis=1), axis=0) * 100`
(app.py 150), in exact rational arithmetic. -/
def percent (store : List FeedbackRecord) (brand : String) (label : SentimentLabel) : ℚ :=
  (tally store brand label : ℚ) / (brandTotal store brand : ℚ) * 100

/-- The user-visible signal of the submit handler: `st.success` on the valid
branch, `st.warning` on the invalid one (app.py 100, 102). -/
inductive SubmitMsg where
  | ok
  | warning
deriving DecidableEq, Repr

/-- State after one press of the Analyze button: the (possibly extended)
store, the number of classifier invocations made, and the signal shown. -/
structure SubmitOutcome where
  store : List FeedbackRecord
  classifierCalls : Nat
  msg : SubmitMsg
deriving DecidableEq, Repr

/-- The tab-1 submit handler (app.py 91-102): `if brand and feedback_text`,
call the classifier, append one record and signal success; otherwise warn and
leave the store untouched.  `classify` is `analyze_sentiment` with its
configuration and network fixed. -/
def submit (store : List FeedbackRecord) (classify : String → ClassifierResult)
    (brand flavor feedbackText : String) : SubmitOutcome :=
  if brand ≠ "" ∧ feedbackText ≠ "" then
    { store := store ++ [⟨brand, flavor, feedbackText, classify feedbackText⟩],
      classifierCalls := 1,
      msg := .ok }
  else
    { store := store, classifierCalls := 0, msg := .warning }

/-- Session start: `st.session_state.feedback_data = []` (app.py 69-70). -/
def initialStore : List FeedbackRecord := []

/-- A sequence of submit actions (brand, flavor, feedback text) run against
the store; the only mutation of `feedback_data` in the program. -/
def runSubmits (classify : String → ClassifierResult) (store : List FeedbackRecord) :
    List (String × String × String) → List FeedbackRecord
  | [] => store
  | (b, f, t) :: rest => runSubmits classify (submit store classify b f t).store rest

/-- Agreement of two classifier results up to the failure message. -/
def resultAgree : ClassifierResult → ClassifierResult → Bool
  | .success a, .success b => a == b
  | .failure _, .failure _ => true
  | _, _ => false

/-- Agreement of two records up to the failure message of their results. -/
def recordAgree (r₁ r₂ : FeedbackRecord) : Bool :=
  r₁.brand == r₂.brand && r₁.flavor == r₂.flavor && r₁.feedback == r₂.feedback
    && resultAgree r₁.result r₂.result

/-- Agreement of two stores up to failure messages: same length, records
pairwise agreeing. -/
def storesAgree : List FeedbackRecord → List FeedbackRecord → Bool
  | [], [] => true
  | r₁ :: t₁, r₂ :: t₂ => recordAgree r₁ r₂ && storesAgree t₁ t₂
  | _, _ => false

/-! ### Helper lemmas -/

/-- Appending never removes records: the submit handler either appends one
record or leaves the store as is. -/
theorem submit_store_extends (store : List FeedbackRecord)
    (classify : String → ClassifierResult) (b f t : String) :
    ∃ d, (submit store classify b f t).store = store ++ d := by
  unfold submit
  split
  · exact ⟨[⟨b, f, t, classify t⟩], rfl⟩
  · exact ⟨[], (List.append_nil store).symm⟩

/-- Counting a brand's pairs label by label partitions its total count. -/
theorem countP_label_partition (l : List (String × SentimentLabel)) (brand : String) :
    l.countP (fun p => p.1 == brand && p.2 == SentimentLabel.Positive)
      + l.countP (fun p => p.1 == brand && p.2 == SentimentLabel.Negative)
      + l.countP (fun p => p.1 == brand && p.2 == SentimentLabel.Neutral)
      = l.countP (fun p => p.1 == brand) := by
  induction l with
  | nil => rfl
  | cons p rest ih =>
    obtain ⟨b, lab⟩ := p
    simp only [List.countP_cons]
    cases lab <;> cases hb : (b == brand) <;> simp [hb] <;> omega

/-- The three label tallies of a brand partition its row total. -/
theorem tally_partition (store : List FeedbackRecord) (brand : String) :
    tally store brand .Positive + tally store brand .Negative
      + tally store brand .Neutral = brandTotal store brand := by
  unfold tally brandTotal
  exact countP_label_partition (sentiment_summary store) brand

/-- Agreeing results classify identically: a failure's message never reaches
the keyword search, which sees the empty default string. -/
theorem sentimentOf_resultAgree (r₁ r₂ : ClassifierResult)
    (h : resultAgree r₁ r₂ = true) : sentimentOf r₁ = sentimentOf r₂ := by
  cases r₁ <;> cases r₂ <;> simp [resultAgree] at h ⊢
  · simp [sentimentOf, rawOf, h]
  · rfl

/-- Agreeing stores produce the same summary list. -/
theorem sentiment_summary_storesAgree (s₁ s₂ : List FeedbackRecord)
    (h : storesAgree s₁ s₂ = true) :
    sentiment_summary s₁ = sentiment_summary s₂ := by
  induction s₁ generalizing s₂ with
  | nil => cases s₂ with
    | nil => rfl
    | cons r t => simp [storesAgree] at h
  | cons r₁ t₁ ih =>
    cases s₂ with
    | nil => simp [storesAgree] at h
    | cons r₂ t₂ =>
      simp only [storesAgree, Bool.and_eq_true] at h
      obtain ⟨hr, ht⟩ := h
      simp only [recordAgree, Bool.and_eq_true, beq_iff_eq] at hr
      obtain ⟨⟨⟨hb, _⟩, _⟩, hres⟩ := hr
      simp only [sentiment_summary, List.map_cons] at *
      rw [ih t₂ ht, hb, sentimentOf_resultAgree _ _ hres]

/-! ### Claims -/

/-- C1: for every feedback string (and every network behaviour), when the
GROQ API key is absent from the process-wide configuration,
`analyze_sentiment` returns the failure whose message is
`"Missing GROQ_API_KEY"` — the missing-credential-configuration message —
and issues zero network calls. -/
theorem missing_key_fails_without_network (net : String → ClassifierResult)
    (feedback : String) :
    analyze_sentiment none net feedback
      = (.failure "Missing GROQ_API_KEY", 0) := rfl

/-- C2: the label of a raw classifier text is computed by lower-casing it and
checking first for the substring "positive" (label Positive), else for
"negative" (label Negative), else Neutral. -/
theorem classification_rule (raw : String) :
    (hasSub "positive".toList (pyLower raw) = true →
        sentimentOfRaw raw = .Positive)
    ∧ (hasSub "positive".toList (pyLower raw) = false →
        hasSub "negative".toList (pyLower raw) = true →
        sentimentOfRaw raw = .Negative)
    ∧ (hasSub "positive".toList (pyLower raw) = false →
        hasSub "negative".toList (pyLower raw) = false →
        sentimentOfRaw raw = .Neutral) := by
  simp only [sentimentOfRaw]
  cases hp : hasSub "positive".toList (pyLower raw) <;>
    cases hn : hasSub "negative".toList (pyLower raw) <;>
    simp [hp, hn]

/-- C2 witness: a text containing both keywords is Positive, one containing
only "negative" is Negative, one containing neither is Neutral. -/
theorem classification_rule_witness :
    sentimentOfRaw "This is positive and negative" = .Positive
    ∧ sentimentOfRaw "terrible, very negative" = .Negative
    ∧ sentimentOfRaw "meh, average drink" = .Neutral :=
  ⟨(classification_rule "This is positive and negative").1 (by decide),
   (classification_rule "terrible, very negative").2.1 (by decide) (by decide),
   (classification_rule "meh, average drink").2.2 (by decide) (by decide)⟩

/-- C3: a failure result contributes the empty string to the keyword search
(`.get("raw", "")`), hence is classified Neutral whatever its message. -/
theorem failure_classifies_neutral (err : String) :
    rawOf (.failure err) = "" ∧ sentimentOf (.failure err) = .Neutral :=
  ⟨rfl, rfl⟩

/-- C4: with non-empty brand and feedback text, a submit appends exactly one
record — holding the classifier's outcome, whatever it is — and signals
success. -/
theorem submit_valid_appends_one (store : List FeedbackRecord)
    (classify : String → ClassifierResult) (brand flavor feedbackText : String)
    (hb : brand ≠ "") (hf : feedbackText ≠ "") :
    (submit store classify brand flavor feedbackText).store
      = store ++ [⟨brand, flavor, feedbackText, classify feedbackText⟩]
    ∧ (submit store classify brand flavor feedbackText).msg = .ok := by
  simp [submit, hb, hf]

/-- C4 witness: one submit appends one record both when the classifier
succeeds and when it fails. -/
theorem submit_valid_appends_one_witness :
    (submit [] (fun _ => .success "overall positive") "Acme" "" "loved it").store
      = [⟨"Acme", "", "loved it", .success "overall positive"⟩]
    ∧ (submit [] (fun _ => .failure "timeout") "Acme" "" "loved it").store
      = [⟨"Acme", "", "loved it", .failure "timeout"⟩] :=
  ⟨(submit_valid_appends_one [] (fun _ => .success "overall positive")
      "Acme" "" "loved it" (by decide) (by decide)).1,
   (submit_valid_appends_one [] (fun _ => .failure "timeout")
      "Acme" "" "loved it" (by decide) (by decide)).1⟩

/-- C5: a submit with empty brand or empty feedback text leaves the store
unchanged and signals only the validation warning. -/
theorem submit_invalid_no_mutation (store : List FeedbackRecord)
    (classify : String → ClassifierResult) (brand flavor feedbackText : String)
    (h : brand = "" ∨ feedbackText = "") :
    (submit store classify brand flavor feedbackText).store = store
    ∧ (submit store classify brand flavor feedbackText).msg = .warning := by
  have hcond : ¬(brand ≠ "" ∧ feedbackText ≠ "") := by tauto
  simp [submit, hcond]

/-- C5 witness: an empty brand leaves a concrete store untouched and warns. -/
theorem submit_invalid_no_mutation_witness :
    (submit [⟨"A", "", "x", .failure "e"⟩] (fun _ => .success "positive")
      "" "Honey" "tasty").store = [⟨"A", "", "x", .failure "e"⟩]
    ∧ (submit [⟨"A", "", "x", .failure "e"⟩] (fun _ => .success "positive")
      "" "Honey" "tasty").msg = .warning :=
  submit_invalid_no_mutation [⟨"A", "", "x", .failure "e"⟩]
    (fun _ => .success "positive") "" "Honey" "tasty" (Or.inl rfl)

/-- C6: aggregation is a pure function of the store contents — two tally
computations over equal stores, with no intervening append, give equal
counts for every brand and label. -/
theorem aggregate_deterministic (s₁ s₂ : List FeedbackRecord) (h : s₁ = s₂)
    (brand : String) (label : SentimentLabel) :
    tally s₁ brand label = tally s₂ brand label := by
  rw [h]

/-- C6 witness: two runs over the same one-record store agree. -/
theorem aggregate_deterministic_witness :
    tally [⟨"Acme", "", "good", .success "positive"⟩] "Acme" .Positive
      = tally [⟨"Acme", "", "good", .success "positive"⟩] "Acme" .Positive :=
  aggregate_deterministic [⟨"Acme", "", "good", .success "positive"⟩]
    [⟨"Acme", "", "good", .success "positive"⟩] rfl "Acme" .Positive

/-- C7: for a brand with at least one record, the percentage view gives each
label count divided by the brand total times 100, and the three label
percentages sum to exactly 100 in rational arithmetic (absent labels
contribute 0, so the sum over present labels is the same). -/
theorem percent_sums_to_100 (store : List FeedbackRecord) (brand : String)
    (h : brandTotal store brand ≠ 0) :
    percent store brand .Positive + percent store brand .Negative
      + percent store brand .Neutral = 100 := by
  have key := tally_partition store brand
  have hq : (tally store brand .Positive : ℚ) + tally store brand .Negative
      + tally store brand .Neutral = brandTotal store brand := by
    exact_mod_cast key
  have hT : (brandTotal store brand : ℚ) ≠ 0 := by exact_mod_cast h
  unfold percent
  field_simp
  linarith

/-- C7 witness: a brand with two records (one positive, one failure) has
percentages summing to 100. -/
theorem percent_sums_to_100_witness :
    brandTotal [⟨"Acme", "", "good", .success "very positive"⟩,
      ⟨"Acme", "", "bad", .failure "timeout"⟩] "Acme" ≠ 0
    ∧ percent [⟨"Acme", "", "good", .success "very positive"⟩,
        ⟨"Acme", "", "bad", .failure "timeout"⟩] "Acme" .Positive
      + percent [⟨"Acme", "", "good", .success "very positive"⟩,
        ⟨"Acme", "", "bad", .failure "timeout"⟩] "Acme" .Negative
      + percent [⟨"Acme", "", "good", .success "very positive"⟩,
        ⟨"Acme", "", "bad", .failure "timeout"⟩] "Acme" .Neutral = 100 :=
  ⟨by decide,
   percent_sums_to_100 [⟨"Acme", "", "good", .success "very positive"⟩,
     ⟨"Acme", "", "bad", .failure "timeout"⟩] "Acme" (by decide)⟩

/-- C8: the store starts empty and is append-only — after any sequence of
submit actions the old store is a prefix of the new one, so every previously
stored record (with its classifier result, computed once at insertion) keeps
its content and position. -/
theorem store_append_only (classify : String → ClassifierResult)
    (ops : List (String × String × String)) :
    initialStore = []
    ∧ ∀ store, ∃ tail, runSubmits classify store ops = store ++ tail := by
  refine ⟨rfl, ?_⟩
  induction ops with
  | nil => exact fun store => ⟨[], (List.append_nil store).symm⟩
  | cons op rest ih =>
    intro store
    obtain ⟨b, f, t⟩ := op
    obtain ⟨d, hd⟩ := submit_store_extends store classify b f t
    obtain ⟨tail, htail⟩ := ih (submit store classify b f t).store
    refine ⟨d ++ tail, ?_⟩
    simp only [runSubmits]
    rw [htail, hd, List.append_assoc]

/-- C9: a submit with empty brand or empty feedback text never invokes the
classifier — validation precedes the classification call. -/
theorem submit_invalid_no_classifier_call (store : List FeedbackRecord)
    (classify : String → ClassifierResult) (brand flavor feedbackText : String)
    (h : brand = "" ∨ feedbackText = "") :
    (submit store classify brand flavor feedbackText).classifierCalls = 0 := by
  have hcond : ¬(brand ≠ "" ∧ feedbackText ≠ "") := by tauto
  simp [submit, hcond]

/-- C9 witness: empty feedback text means zero classifier calls. -/
theorem submit_invalid_no_classifier_call_witness :
    (submit [] (fun _ => .success "positive") "Jack" "Honey" "").classifierCalls
      = 0 :=
  submit_invalid_no_classifier_call [] (fun _ => .success "positive")
    "Jack" "Honey" "" (Or.inr rfl)

/-- C10: the tally never depends on failure error messages — two stores that
agree except on the messages of failed results produce identical tallies for
every brand and label. -/
theorem tally_ignores_error_messages (s₁ s₂ : List FeedbackRecord)
    (h : storesAgree s₁ s₂ = true) (brand : String) (label : SentimentLabel) :
    tally s₁ brand label = tally s₂ brand label := by
  unfold tally
  rw [sentiment_summary_storesAgree s₁ s₂ h]

/-- C10 witness: two one-record stores differing only in the failure message
have equal Neutral tallies. -/
theorem tally_ignores_error_messages_witness :
    storesAgree [⟨"Acme", "x", "bad", .failure "Timeout after 30s"⟩]
      [⟨"Acme", "x", "bad", .failure "401 Unauthorized"⟩] = true
    ∧ tally [⟨"Acme", "x", "bad", .failure "Timeout after 30s"⟩] "Acme" .Neutral
      = tally [⟨"Acme", "x", "bad", .failure "401 Unauthorized"⟩] "Acme" .Neutral :=
  ⟨by decide,
   tally_ignores_error_messages
     [⟨"Acme", "x", "bad", .failure "Timeout after 30s"⟩]
     [⟨"Acme", "x", "bad", .failure "401 Unauthorized"⟩]
     (by decide) "Acme" .Neutral⟩

end LiquorSentiment
